import Mathlib

/-!
Shallow embedding of `eksi_rss.py`: a Flask application that converts
Ekşi Sözlük topic pages into RSS feeds.  Strings handled character by
character are embedded as `List Char`; stateful pieces (the subscription
file, the wall clock, the remote site) are passed explicitly as values.
-/

namespace EksiRss

/-- The prefix `"http"` tested by `girdi.startswith('http')`. -/
def httpOneki : List Char := ['h', 't', 't', 'p']

/-- Leftmost match of the regex `--(\d+)`: scan left to right for a
position where two dashes are followed by at least one digit, and return
the maximal digit run after the dashes (Python `re.search` group 1). -/
def ciftTireAra : List Char → Option (List Char)
  | c1 :: c2 :: c3 :: kalan =>
      if c1 = '-' ∧ c2 = '-' ∧ c3.isDigit then
        some ((c3 :: kalan).takeWhile Char.isDigit)
      else
        ciftTireAra (c2 :: c3 :: kalan)
  | _ => none

/-- Python `str.isdigit()`: true iff the string is nonempty and every
character is a digit. -/
def pyIsdigit (l : List Char) : Bool := !l.isEmpty && l.all Char.isDigit

/-- One uppercase hexadecimal digit, as produced by `urllib.parse.quote`. -/
def hexBasamak (n : Nat) : Char :=
  if n < 10 then Char.ofNat (48 + n) else Char.ofNat (55 + n)

/-- Percent-encoding of a single byte value. -/
def baytKodla (b : Nat) : List Char :=
  ['%', hexBasamak (b / 16), hexBasamak (b % 16)]

/-- UTF-8 bytes of a code point. -/
def utf8Baytlari (n : Nat) : List Nat :=
  if n < 128 then [n]
  else if n < 2048 then [192 + n / 64, 128 + n % 64]
  else if n < 65536 then [224 + n / 4096, 128 + (n / 64) % 64, 128 + n % 64]
  else [240 + n / 262144, 128 + (n / 4096) % 64, 128 + (n / 64) % 64, 128 + n % 64]

/-- Characters `urllib.parse.quote` leaves unencoded with its default
`safe='/'`: ASCII letters, digits, `_ . - ~` and `/`. -/
def guvenliMi (c : Char) : Bool :=
  c.isAlphanum || c = '_' || c = '.' || c = '-' || c = '~' || c = '/'

/-- `urllib.parse.quote(girdi)` with the default safe set. -/
def urlKodla (l : List Char) : List Char :=
  l.flatMap fun c =>
    if guvenliMi c then [c] else (utf8Baytlari c.toNat).flatMap baytKodla

/-- `baslik_url_ayrıstir` (lines 53-76): turn a free-form input into a
fetch URL and an optional topic identifier.  Four branches: absolute URL,
all-digits identifier, slug containing `--<digits>`, and free-text search
term. -/
def baslik_url_ayristir (girdi : List Char) : List Char × Option (List Char) :=
  if httpOneki.isPrefixOf girdi then
    match ciftTireAra girdi with
    | some baslikId => (girdi, some baslikId)
    | none => (girdi, none)
  else if pyIsdigit girdi then
    ("https://eksisozluk.com/baslik/".data ++ girdi, some girdi)
  else
    match ciftTireAra girdi with
    | some baslikId => ("https://eksisozluk.com/".data ++ girdi, some baslikId)
    | none => ("https://eksisozluk.com/?q=".data ++ urlKodla girdi, none)

/-- A civil date-time in the fixed Europe/Istanbul timezone. -/
structure Tarih where
  yil : Nat
  ay : Nat
  gun : Nat
  saat : Nat
  dakika : Nat
deriving DecidableEq, Repr

/-- Gregorian leap-year test. -/
def artikYil (y : Nat) : Bool := (y % 4 = 0 && y % 100 ≠ 0) || y % 400 = 0

/-- Number of days in a month (month numbered from 1). -/
def ayGunSayisi (y m : Nat) : Nat :=
  if m = 2 then (if artikYil y then 29 else 28)
  else if m = 4 ∨ m = 6 ∨ m = 9 ∨ m = 11 then 30
  else 31

/-- Numeric value of a digit character. -/
def rakamDegeri (c : Char) : Nat := c.toNat - 48

/-- Does a match of the regex `\d{2}\.\d{2}\.\d{4} \d{2}:\d{2}` start at
the head of the list?  If so, return the 16 matched characters. -/
def desenUyar (l : List Char) : Option (List Char) :=
  match l with
  | d1 :: d2 :: '.' :: d3 :: d4 :: '.' :: y1 :: y2 :: y3 :: y4 :: ' ' ::
      s1 :: s2 :: ':' :: m1 :: m2 :: _ =>
    if ([d1, d2, d3, d4, y1, y2, y3, y4, s1, s2, m1, m2].all Char.isDigit) then
      some [d1, d2, '.', d3, d4, '.', y1, y2, y3, y4, ' ', s1, s2, ':', m1, m2]
    else none
  | _ => none

/-- Leftmost match of `re.search(r'(\d{2}\.\d{2}\.\d{4} \d{2}:\d{2})', s)`:
scan positions left to right and return the first 16-character match. -/
def tarihDeseniAra : List Char → Option (List Char)
  | [] => none
  | c :: kalan =>
    match desenUyar (c :: kalan) with
    | some m => some m
    | none => tarihDeseniAra kalan

/-- `datetime.datetime.strptime(s, '%d.%m.%Y %H:%M')`: parse the matched
`DD.MM.YYYY HH:MM` text and validate it as a calendar date-time; `none`
models the `ValueError` raised on an invalid date such as day 00 or
month 13. -/
def strptimeGunAy (l : List Char) : Option Tarih :=
  match l with
  | [d1, d2, '.', a1, a2, '.', y1, y2, y3, y4, ' ', s1, s2, ':', m1, m2] =>
    if ([d1, d2, a1, a2, y1, y2, y3, y4, s1, s2, m1, m2].all Char.isDigit) then
      let gun := 10 * rakamDegeri d1 + rakamDegeri d2
      let ay := 10 * rakamDegeri a1 + rakamDegeri a2
      let yil := 1000 * rakamDegeri y1 + 100 * rakamDegeri y2 +
        10 * rakamDegeri y3 + rakamDegeri y4
      let saat := 10 * rakamDegeri s1 + rakamDegeri s2
      let dakika := 10 * rakamDegeri m1 + rakamDegeri m2
      if 1 ≤ yil ∧ 1 ≤ ay ∧ ay ≤ 12 ∧ 1 ≤ gun ∧ gun ≤ ayGunSayisi yil ay ∧
          saat ≤ 23 ∧ dakika ≤ 59 then
        some ⟨yil, ay, gun, saat, dakika⟩
      else none
    else none
  | _ => none

/-- Lines 258-272: compute the publish time of an entry from the visible
text of its date link.  If the `DD.MM.YYYY HH:MM` pattern is absent, or
`strptime` rejects the matched text, fall back to the current wall-clock
time `simdi` (already an Istanbul-timezone value). -/
def yayimTarihi (simdi : Tarih) (tarihMetni : String) : Tarih :=
  match tarihDeseniAra tarihMetni.data with
  | none => simdi
  | some m =>
    match strptimeGunAy m with
    | none => simdi
    | some t => t

/-- One `<li>` item of the entry list `ul#entry-item-list`, as the code
reads it: the `data-id` and `data-author` attributes, the `div.content`
child (its `decode_contents()` serialization) and the `div.info
a.entry-date` child (its stripped text and `href` attribute), each absent
when the corresponding attribute or element is missing. -/
structure Girdi where
  dataId : Option String
  dataAuthor : Option String
  icerikElemani : Option String
  tarihElemani : Option (String × Option String)
deriving DecidableEq, Repr

/-- Python f-string interpolation of an optional `href`: `None` renders
as the text `"None"`. -/
def hrefMetni : Option String → String
  | some h => h
  | none => "None"

/-- One feed entry as built by the `fe.…` setter calls: `fe.title(None)`
and `fe.author(name=None)` store an absent value without raising, so the
author-derived fields are optional. -/
structure FeedOgesi where
  kimlik : String
  baslik : Option String
  baglanti : String
  yazarAdi : Option String
  icerik : String
  yayimlanma : Tarih
deriving DecidableEq, Repr

/-- Lines 227-276: process one list item.  The item is skipped (`continue`)
when `data-id` is absent, when `div.content` is absent, or when the
`a.entry-date` element is absent; `data-author` is read but never checked,
so a missing author still yields a feed entry.  Every field setter below
is total, so the surrounding `try/except` catches nothing. -/
def girdi_isle (simdi : Tarih) (g : Girdi) : Option FeedOgesi :=
  match g.dataId with
  | none => none
  | some _ =>
    let yazar := g.dataAuthor
    match g.icerikElemani with
    | none => none
    | some icerik =>
      match g.tarihElemani with
      | none => none
      | some (tarihMetni, kaliciBaglanti) =>
        let mutlak := "https://eksisozluk.com" ++ hrefMetni kaliciBaglanti
        some { kimlik := mutlak
               baslik := yazar
               baglanti := mutlak
               yazarAdi := yazar
               icerik := icerik
               yayimlanma := yayimTarihi simdi tarihMetni }

/-- Outcome of `eksi_sayfasi_al` for one page URL: a parsed list of
`<li>` items, a falsy response (the `if not yanit: break` branch), or a
raised exception. -/
inductive FetchSonuc where
  | tamam (girdiler : List Girdi)
  | bos
  | istisna
deriving DecidableEq, Repr

/-- The informational placeholder entry `"Bilgilendirme"` added when a
page fetch raises or page 1 has no entries (lines 194-201 and 214-221). -/
def bilgiOgesi (simdi : Tarih) (sonUrl bugun : String) : FeedOgesi :=
  { kimlik := sonUrl ++ "#bugun-girdi-yok-" ++ bugun
    baslik := some "Bilgilendirme"
    baglanti := sonUrl
    yazarAdi := some "Ekşi RSS"
    icerik := "Bugün (" ++ bugun ++ ") için bu başlıkta herhangi bir entry bulunmamaktadır."
    yayimlanma := simdi }

/-- The pagination loop of `baslik_icin_feed_olustur` (lines 173-281),
starting at page `sayfa` with `kalan` loop iterations remaining.  Returns
the feed entries contributed from this point on (in the order the
`fg.add_entry()` calls are made) together with the list of page numbers
fetched from this point on.  Branches, in code order: a raised fetch
exception appends the placeholder entry and returns the feed; a falsy
response breaks; an empty item list adds the placeholder only on page 1
and breaks; otherwise the items are processed in document order and the
loop continues only when at least 10 items were found on the page. -/
def feedDongusu (simdi : Tarih) (sonUrl bugun : String)
    (sayfalar : Nat → FetchSonuc) : Nat → Nat → List FeedOgesi × List Nat
  | _, 0 => ([], [])
  | sayfa, kalan + 1 =>
    match sayfalar sayfa with
    | .istisna => ([bilgiOgesi simdi sonUrl bugun], [sayfa])
    | .bos => ([], [sayfa])
    | .tamam girdiler =>
      if girdiler.isEmpty then
        ((if sayfa = 1 then [bilgiOgesi simdi sonUrl bugun] else []), [sayfa])
      else
        let ogeler := girdiler.filterMap (girdi_isle simdi)
        if girdiler.length < 10 then (ogeler, [sayfa])
        else
          let sonraki := feedDongusu simdi sonUrl bugun sayfalar (sayfa + 1) kalan
          (ogeler ++ sonraki.1, sayfa :: sonraki.2)

/-- The feed-item part of `baslik_icin_feed_olustur` (after the topic
lookup succeeded): run the pagination loop over pages `1 .. max_sayfa`.
The first component is the sequence of `fg.add_entry()` calls in call
order; the entry list the `FeedGenerator` actually serves is
`sunulanOgeler` of it, because the library prepends each added entry. -/
def baslikFeedi (simdi : Tarih) (sonUrl bugun : String)
    (sayfalar : Nat → FetchSonuc) (maxSayfa : Nat) : List FeedOgesi × List Nat :=
  feedDongusu simdi sonUrl bugun sayfalar 1 maxSayfa

/-- The entry list held by the `FeedGenerator` after a sequence of
`fg.add_entry()` calls, which is also the item order of the RSS that
`rss_str` serves: feedgen's `add_entry` defaults to `order='prepend'`
(insert at index 0), so the list is the reverse of the call order. -/
def sunulanOgeler (cagriSirasi : List FeedOgesi) : List FeedOgesi :=
  cagriSirasi.reverse

/-- One record of `abonelikler.json`, as appended by `feed_ekle`
(lines 314-320). -/
structure Abonelik where
  id : String
  baslik : String
  url : String
  slug : Option String
  eklemeTarihi : String
deriving DecidableEq, Repr

/-- The store mutation of `feed_ekle` (lines 308-323): if some stored
record already has the new identifier, redirect without appending or
saving; otherwise append the new record and save.  The boolean reports
whether `abonelikleri_kaydet` was called. -/
def feed_ekle_kaydi (abonelikler : List Abonelik) (yeni : Abonelik) :
    List Abonelik × Bool :=
  if abonelikler.any (fun abone => abone.id = yeni.id) then (abonelikler, false)
  else (abonelikler ++ [yeni], true)

/-- The store mutation of `feed_kaldir` (lines 325-331): keep every record
whose identifier differs from the one being removed, in one pass. -/
def feed_kaldir_kaydi (abonelikler : List Abonelik) (baslikId : String) :
    List Abonelik :=
  abonelikler.filter (fun abone => abone.id ≠ baslikId)

/-- The subscription file as `abonelikleri_yukle` sees it: whether
`abonelikler.json` exists, and the parsed list it holds when it does. -/
structure DosyaSistemi where
  varMi : Bool
  icerik : List Abonelik
deriving DecidableEq, Repr

/-- `abonelikleri_yukle` (lines 41-46): return the parsed file contents
when the file exists, and the empty list otherwise. -/
def abonelikleri_yukle (fs : DosyaSistemi) : List Abonelik :=
  if fs.varMi then fs.icerik else []

/-- The subscription list the home page `anasayfa` passes to its
template (lines 286-290). -/
def anasayfaAbonelikleri (fs : DosyaSistemi) : List Abonelik :=
  abonelikleri_yukle fs

/-- The subscriptions the combined feed `tum_feedler` iterates over:
the first 10 stored records (line 393). -/
def hepsiKaynaklari (fs : DosyaSistemi) : List Abonelik :=
  (abonelikleri_yukle fs).take 10

/-- The topic URL chosen by `id_ile_feed` (lines 336-346): the stored
record's URL when a record with the identifier exists and its URL is
truthy, else the synthesized base URL. -/
def idIleFeedUrl (fs : DosyaSistemi) (baslikId : String) : String :=
  match (abonelikleri_yukle fs).find? (fun abone => abone.id = baslikId) with
  | some abone =>
    if abone.url = "" then "https://eksisozluk.com/baslik/" ++ baslikId
    else abone.url
  | none => "https://eksisozluk.com/baslik/" ++ baslikId

/-- A fixed wall-clock instant used for concrete evaluations. -/
def ornekSimdi : Tarih := ⟨2025, 6, 1, 12, 0⟩

/-- A well-formed list item: all four extracted parts present. -/
def tamGirdi1 : Girdi :=
  ⟨some "101", some "yazar1", some "<p>bir</p>", some ("01.03.2024 09:15", some "/entry/101")⟩

/-- A second well-formed list item. -/
def tamGirdi2 : Girdi :=
  ⟨some "102", some "yazar2", some "<p>iki</p>", some ("01.03.2024 10:20", some "/entry/102")⟩

/-- A third well-formed list item. -/
def tamGirdi3 : Girdi :=
  ⟨some "103", some "yazar3", some "<p>üç</p>", some ("01.03.2024 11:45", some "/entry/103")⟩

/-- A list item whose `data-author` attribute is missing; everything else
is present. -/
def yazarsizGirdi : Girdi :=
  ⟨some "104", none, some "<p>dört</p>", some ("01.03.2024 12:00", some "/entry/104")⟩

/-- A page fragment with 3 well-formed items and 1 item missing only its
author attribute, in document order. -/
def ornekParca : List Girdi := [tamGirdi1, tamGirdi2, tamGirdi3, yazarsizGirdi]

/-- A well-formed item whose date text parses to 10:00. -/
def girdiSaatOn : Girdi :=
  ⟨some "201", some "aliye", some "<p>A</p>", some ("01.01.2024 10:00", some "/entry/201")⟩

/-- A well-formed item whose date text parses to 09:00. -/
def girdiSaatDokuz : Girdi :=
  ⟨some "202", some "veli", some "<p>B</p>", some ("01.01.2024 09:00", some "/entry/202")⟩

/-- The feed entry produced from `girdiSaatOn`. -/
def ogeSaatOn : FeedOgesi :=
  { kimlik := "https://eksisozluk.com/entry/201"
    baslik := some "aliye"
    baglanti := "https://eksisozluk.com/entry/201"
    yazarAdi := some "aliye"
    icerik := "<p>A</p>"
    yayimlanma := ⟨2024, 1, 1, 10, 0⟩ }

/-- The feed entry produced from `girdiSaatDokuz`. -/
def ogeSaatDokuz : FeedOgesi :=
  { kimlik := "https://eksisozluk.com/entry/202"
    baslik := some "veli"
    baglanti := "https://eksisozluk.com/entry/202"
    yazarAdi := some "veli"
    icerik := "<p>B</p>"
    yayimlanma := ⟨2024, 1, 1, 9, 0⟩ }

/-- A remote site whose first page holds the 10:00 item before the 09:00
item in document order. -/
def sayfaOnDokuz : Nat → FetchSonuc := fun sayfa =>
  if sayfa = 1 then .tamam [girdiSaatOn, girdiSaatDokuz] else .bos

/-- A well-formed item whose date text contains no `DD.MM.YYYY HH:MM`
pattern. -/
def tarihsizGirdi : Girdi :=
  ⟨some "301", some "yazar", some "<p>içerik</p>", some ("bugün", some "/entry/301")⟩

/-- A remote site whose first page holds exactly 10 items and whose later
pages are empty. -/
def onluSayfalar : Nat → FetchSonuc := fun sayfa =>
  if sayfa = 1 then .tamam (List.replicate 10 tamGirdi1) else .tamam []

/-- A remote site whose every page holds exactly 9 items. -/
def dokuzluSayfalar : Nat → FetchSonuc := fun _ =>
  .tamam (List.replicate 9 tamGirdi1)

/-- A concrete stored subscription record. -/
def ornekAbonelik : Abonelik :=
  ⟨"31782", "pena", "https://eksisozluk.com/pena--31782", some "pena",
   "2025-06-01T12:00:00"⟩

/-- A second stored subscription record with a different identifier. -/
def digerAbonelik : Abonelik :=
  ⟨"207161", "ekşi sözlük", "https://eksisozluk.com/eksi-sozluk--207161",
   some "eksi-sozluk", "2025-06-01T12:05:00"⟩

end EksiRss

namespace EksiRss

/-- A successful `ciftTireAra` match means the input contains a dash. -/
theorem ciftTireAra_tire_icerir :
    ∀ (l : List Char) (d : List Char), ciftTireAra l = some d → '-' ∈ l := by
  intro l
  induction l with
  | nil => intro d h; simp [ciftTireAra] at h
  | cons c1 t ih =>
    intro d h
    match t with
    | [] => simp [ciftTireAra] at h
    | [c2] => simp [ciftTireAra] at h
    | c2 :: c3 :: kalan =>
      rw [ciftTireAra] at h
      split at h
      · rename_i hcond
        rw [hcond.1]
        exact List.mem_cons_self '-' _
      · exact List.mem_cons_of_mem c1 (ih d h)

/-- An all-digit string has no `--<digits>` match. -/
theorem ciftTireAra_rakamlarda_yok (l : List Char) (h : l.all Char.isDigit = true) :
    ciftTireAra l = none := by
  cases hx : ciftTireAra l with
  | none => rfl
  | some d =>
    exfalso
    have hm : '-' ∈ l := ciftTireAra_tire_icerir l d hx
    have := List.all_eq_true.mp h '-' hm
    simp at this

/-- A nonempty all-digit string does not start with `"http"`. -/
theorem rakamsal_http_degil (l : List Char) (h : pyIsdigit l = true) :
    httpOneki.isPrefixOf l = false := by
  cases l with
  | nil => simp [pyIsdigit] at h
  | cons c t =>
    have hd : c.isDigit = true := by
      simp [pyIsdigit, List.all_cons] at h
      exact h.1
    cases hp : httpOneki.isPrefixOf (c :: t) with
    | false => rfl
    | true =>
      exfalso
      simp only [httpOneki, List.isPrefixOf, Bool.and_eq_true, beq_iff_eq] at hp
      rw [← hp.1] at hd
      exact absurd hd (by decide)

/-- C4: for every input composed entirely of digits, `baslik_url_ayrıstir`
returns that digit string as the identifier and the fixed base path
`https://eksisozluk.com/baslik/` followed by the digits as the fetch URL;
the resolver is a pure total function, so it always returns a URL. -/
theorem rakamsal_girdi_cozumu (girdi : List Char) (h : pyIsdigit girdi = true) :
    baslik_url_ayristir girdi =
      ("https://eksisozluk.com/baslik/".data ++ girdi, some girdi) := by
  unfold baslik_url_ayristir
  rw [rakamsal_http_degil girdi h]
  simp [h]

/-- Witness for C4 at the concrete input `"12345"`. -/
theorem rakamsal_girdi_cozumu_tanik :
    pyIsdigit "12345".data = true ∧
      baslik_url_ayristir "12345".data =
        ("https://eksisozluk.com/baslik/12345".data, some "12345".data) :=
  ⟨by decide, by rw [rakamsal_girdi_cozumu "12345".data (by decide)]; decide⟩

/-- C5: whenever the input contains a `--<digits>` pattern, the identifier
returned by `baslik_url_ayrıstir` is exactly those digits, whether the
input starts with the scheme prefix `http` (absolute URL, passed through
as the fetch URL) or is a bare slug (fetch URL is the site root followed
by the slug); only the constructed fetch URL differs. -/
theorem cift_tire_kimligi (girdi d : List Char) (h : ciftTireAra girdi = some d) :
    (baslik_url_ayristir girdi).2 = some d ∧
      (httpOneki.isPrefixOf girdi = true → (baslik_url_ayristir girdi).1 = girdi) ∧
      (httpOneki.isPrefixOf girdi = false →
        (baslik_url_ayristir girdi).1 = "https://eksisozluk.com/".data ++ girdi) := by
  have hdigit : pyIsdigit girdi = false := by
    cases hk : pyIsdigit girdi with
    | false => rfl
    | true =>
      exfalso
      have := ciftTireAra_rakamlarda_yok girdi (by
        simp only [pyIsdigit, Bool.and_eq_true] at hk
        exact hk.2)
      rw [this] at h
      exact Option.noConfusion h
  unfold baslik_url_ayristir
  cases hp : httpOneki.isPrefixOf girdi with
  | true => simp [h]
  | false => simp [hdigit, h]

/-- Witness for C5 at the slug `"pena--31782"` and the absolute URL
`"https://eksisozluk.com/pena--31782"`. -/
theorem cift_tire_kimligi_tanik :
    (baslik_url_ayristir "pena--31782".data).2 = some "31782".data ∧
      (baslik_url_ayristir "https://eksisozluk.com/pena--31782".data).2 =
        some "31782".data :=
  ⟨(cift_tire_kimligi "pena--31782".data "31782".data (by decide)).1,
   (cift_tire_kimligi "https://eksisozluk.com/pena--31782".data "31782".data
      (by decide)).1⟩

/-- C1 counterexample: on a page fragment with 3 well-formed items and 1
item missing only its author attribute, the code produces 4 feed entries,
not 3 — the item without `data-author` is not skipped. -/
theorem yazarsiz_girdi_atlanmaz :
    ¬ (ornekParca.filterMap (girdi_isle ornekSimdi)).length = 3 ∧
      (ornekParca.filterMap (girdi_isle ornekSimdi)).length = 4 ∧
      girdi_isle ornekSimdi yazarsizGirdi ≠ none := by
  refine ⟨by decide, by decide, by decide⟩

/-- C1 amended: a list item is skipped exactly when its identifier
attribute, content sub-element, or date-link sub-element is missing; a
missing author attribute alone never causes a skip, so the 3+1 fragment
yields 4 entries in document order. -/
theorem girdi_atlama_kosulu (simdi : Tarih) (g : Girdi) :
    (girdi_isle simdi g = none ↔
      (g.dataId = none ∨ g.icerikElemani = none ∨ g.tarihElemani = none)) := by
  obtain ⟨dataId, dataAuthor, icerikElemani, tarihElemani⟩ := g
  cases dataId <;> cases icerikElemani <;> cases tarihElemani <;>
    simp_all [girdi_isle]

/-- C2 counterexample: on a single page holding the 10:00 entry before
the 09:00 entry in document order, the served feed lists the 09:00 item
first — the output order is not the encounter order, because the feed
library prepends each added entry. -/
theorem sira_tersine_doner :
    girdi_isle ornekSimdi girdiSaatOn = some ogeSaatOn ∧
      girdi_isle ornekSimdi girdiSaatDokuz = some ogeSaatDokuz ∧
      sunulanOgeler (baslikFeedi ornekSimdi "u" "g" sayfaOnDokuz 3).1 =
        [ogeSaatDokuz, ogeSaatOn] ∧
      sunulanOgeler (baslikFeedi ornekSimdi "u" "g" sayfaOnDokuz 3).1 ≠
        [ogeSaatOn, ogeSaatDokuz] := by
  refine ⟨by decide, by decide, by decide, by decide⟩

/-- C2 amended: the assembler adds entries to the feed in encounter order
(pages in ascending page number, document order within a page) and never
re-sorts by timestamp, but the feed library prepends each added entry, so
the served feed lists the items in reverse encounter order: a single page
with entries [A@10:00, B@09:00] in that document order is served as
[B, A]. -/
theorem sira_tersine (simdi : Tarih) (sonUrl bugun : String)
    (sayfalar : Nat → FetchSonuc) (maxSayfa : Nat) (hm : 1 ≤ maxSayfa)
    (hp : sayfalar 1 = .tamam [girdiSaatOn, girdiSaatDokuz]) :
    (baslikFeedi simdi sonUrl bugun sayfalar maxSayfa).1 =
      [ogeSaatOn, ogeSaatDokuz] ∧
    sunulanOgeler (baslikFeedi simdi sonUrl bugun sayfalar maxSayfa).1 =
      [ogeSaatDokuz, ogeSaatOn] := by
  obtain ⟨m, rfl⟩ : ∃ m, maxSayfa = m + 1 :=
    ⟨maxSayfa - 1, (Nat.succ_pred_eq_of_pos hm).symm⟩
  have hc : (baslikFeedi simdi sonUrl bugun sayfalar (m + 1)).1 =
      [ogeSaatOn, ogeSaatDokuz] := by
    simp only [baslikFeedi, feedDongusu, hp]
    rfl
  exact ⟨hc, by rw [hc]; rfl⟩

/-- Witness for C2 with a concrete page function and `max_sayfa = 3`. -/
theorem sira_tersine_tanik :
    (baslikFeedi ornekSimdi "u" "g" sayfaOnDokuz 3).1 =
      [ogeSaatOn, ogeSaatDokuz] ∧
    sunulanOgeler (baslikFeedi ornekSimdi "u" "g" sayfaOnDokuz 3).1 =
      [ogeSaatDokuz, ogeSaatOn] :=
  sira_tersine ornekSimdi "u" "g" sayfaOnDokuz 3 (by decide) rfl

/-- C7: an entry whose date text has no `DD.MM.YYYY HH:MM` pattern, or
whose matched pattern fails calendar parsing, still yields a feed entry,
and its publish time is the current Istanbul wall-clock time; the entry is
never dropped for a date problem. -/
theorem tarih_yedegi (simdi : Tarih) (g : Girdi) (metni : String)
    (href : Option String)
    (h1 : g.dataId.isSome = true) (h2 : g.icerikElemani.isSome = true)
    (h3 : g.tarihElemani = some (metni, href))
    (h4 : tarihDeseniAra metni.data = none ∨
      ∃ m, tarihDeseniAra metni.data = some m ∧ strptimeGunAy m = none) :
    ∃ oge, girdi_isle simdi g = some oge ∧ oge.yayimlanma = simdi := by
  obtain ⟨kimlik, hk⟩ := Option.isSome_iff_exists.mp h1
  obtain ⟨icerik, hi⟩ := Option.isSome_iff_exists.mp h2
  have hyedek : yayimTarihi simdi metni = simdi := by
    rcases h4 with h | ⟨m, hm, hs⟩
    · simp [yayimTarihi, h]
    · simp [yayimTarihi, hm, hs]
  refine ⟨{ kimlik := "https://eksisozluk.com" ++ hrefMetni href
            baslik := g.dataAuthor
            baglanti := "https://eksisozluk.com" ++ hrefMetni href
            yazarAdi := g.dataAuthor
            icerik := icerik
            yayimlanma := yayimTarihi simdi metni }, ?_, hyedek⟩
  simp [girdi_isle, hk, hi, h3]

/-- Witness for C7 at a concrete entry whose date text is `"bugün"`. -/
theorem tarih_yedegi_tanik :
    ∃ oge, girdi_isle ornekSimdi tarihsizGirdi = some oge ∧
      oge.yayimlanma = ornekSimdi :=
  tarih_yedegi ornekSimdi tarihsizGirdi "bugün" (some "/entry/301")
    rfl rfl rfl (Or.inl (by decide))

/-- Whenever the loop body runs for a page (fuel remaining), that page's
number is recorded as fetched. -/
theorem feedDongusu_sayfa_alinir (simdi : Tarih) (sonUrl bugun : String)
    (sayfalar : Nat → FetchSonuc) (sayfa kalan : Nat) :
    sayfa ∈ (feedDongusu simdi sonUrl bugun sayfalar sayfa (kalan + 1)).2 := by
  simp only [feedDongusu]
  cases h : sayfalar sayfa with
  | istisna => simp
  | bos => simp
  | tamam girdiler =>
    by_cases he : girdiler.isEmpty <;> by_cases hl : girdiler.length < 10 <;>
      simp [he, hl]

/-- C3: with `sayfalar 1` yielding its items and `max_sayfa ≥ 2`, a first
page from which exactly 10 items were extracted is followed by a fetch of
page 2, while a first page with 9 items is the last page fetched even
though `max_sayfa` allows more. -/
theorem sayfalama_esigi (simdi : Tarih) (sonUrl bugun : String)
    (sayfalar : Nat → FetchSonuc) (maxSayfa : Nat) (gs : List Girdi)
    (hm : 2 ≤ maxSayfa) (hp : sayfalar 1 = .tamam gs) :
    (gs.length = 10 →
        2 ∈ (baslikFeedi simdi sonUrl bugun sayfalar maxSayfa).2) ∧
    (gs.length = 9 →
        (baslikFeedi simdi sonUrl bugun sayfalar maxSayfa).2 = [1]) := by
  obtain ⟨k, rfl⟩ : ∃ k, maxSayfa = k + 1 + 1 :=
    ⟨maxSayfa - 2, by omega⟩
  constructor
  · intro h10
    have he : gs.isEmpty = false := by
      cases gs with
      | nil => simp at h10
      | cons a t => rfl
    have hl : ¬ gs.length < 10 := by omega
    simp only [baslikFeedi, feedDongusu, hp, he, Bool.false_eq_true, if_false, hl]
    exact List.mem_cons_of_mem 1
      (feedDongusu_sayfa_alinir simdi sonUrl bugun sayfalar 2 k)
  · intro h9
    have he : gs.isEmpty = false := by
      cases gs with
      | nil => simp at h9
      | cons a t => rfl
    have hl : gs.length < 10 := by omega
    simp [baslikFeedi, feedDongusu, hp, he, hl]

/-- Witness for C3: a site whose page 1 holds exactly 10 items is asked
for page 2, and a site whose page 1 holds 9 items is not. -/
theorem sayfalama_esigi_tanik :
    2 ∈ (baslikFeedi ornekSimdi "u" "g" onluSayfalar 2).2 ∧
      (baslikFeedi ornekSimdi "u" "g" dokuzluSayfalar 2).2 = [1] :=
  ⟨(sayfalama_esigi ornekSimdi "u" "g" onluSayfalar 2
      (List.replicate 10 tamGirdi1) (by decide) rfl).1 rfl,
   (sayfalama_esigi ornekSimdi "u" "g" dokuzluSayfalar 2
      (List.replicate 9 tamGirdi1) (by decide) rfl).2 rfl⟩

/-- C8: a loop iteration that finds zero items on a page numbered above 1
contributes no entries (no placeholder) and stops pagination with no
further page fetched, so the feed built on earlier pages is returned
unchanged; in particular with 10 items on page 1, zero on page 2 and
`max_sayfa ≥ 3`, the run fetches exactly pages 1 and 2 and returns just
page 1's entries. -/
theorem bos_sayfa_durdurur (simdi : Tarih) (sonUrl bugun : String)
    (sayfalar : Nat → FetchSonuc) :
    (∀ sayfa kalan, 2 ≤ sayfa → sayfalar sayfa = .tamam [] →
        feedDongusu simdi sonUrl bugun sayfalar sayfa (kalan + 1) =
          ([], [sayfa])) ∧
    (∀ maxSayfa gs, 3 ≤ maxSayfa → sayfalar 1 = .tamam gs →
        gs.length = 10 → sayfalar 2 = .tamam [] →
        baslikFeedi simdi sonUrl bugun sayfalar maxSayfa =
          (gs.filterMap (girdi_isle simdi), [1, 2])) := by
  have adim : ∀ sayfa kalan, 2 ≤ sayfa → sayfalar sayfa = .tamam [] →
      feedDongusu simdi sonUrl bugun sayfalar sayfa (kalan + 1) =
        ([], [sayfa]) := by
    intro sayfa kalan hs hp
    have h1 : sayfa ≠ 1 := by omega
    simp [feedDongusu, hp, h1]
  refine ⟨adim, ?_⟩
  intro maxSayfa gs hm hp1 h10 hp2
  obtain ⟨k, rfl⟩ : ∃ k, maxSayfa = k + 1 + 1 + 1 := ⟨maxSayfa - 3, by omega⟩
  have he : gs.isEmpty = false := by
    cases gs with
    | nil => simp at h10
    | cons a t => rfl
  have hl : ¬ gs.length < 10 := by omega
  simp [baslikFeedi, feedDongusu, hp1, he, hl, hp2]

/-- Witness for C8: the concrete ten-then-empty site with `max_sayfa = 3`
fetches pages 1 and 2 only and returns page 1's entries. -/
theorem bos_sayfa_durdurur_tanik :
    baslikFeedi ornekSimdi "u" "g" onluSayfalar 3 =
      ((List.replicate 10 tamGirdi1).filterMap (girdi_isle ornekSimdi),
        [1, 2]) :=
  (bos_sayfa_durdurur ornekSimdi "u" "g" onluSayfalar).2 3
    (List.replicate 10 tamGirdi1) (by decide) rfl rfl rfl

/-- C6: adding a subscription whose identifier already exists leaves the
stored list unchanged and performs no save, and an add operation
preserves uniqueness of stored identifiers. -/
theorem mevcut_abonelik_eklenmez (abonelikler : List Abonelik)
    (yeni : Abonelik) :
    ((∃ abone ∈ abonelikler, abone.id = yeni.id) →
        feed_ekle_kaydi abonelikler yeni = (abonelikler, false)) ∧
    ((abonelikler.map Abonelik.id).Nodup →
        (((feed_ekle_kaydi abonelikler yeni).1).map Abonelik.id).Nodup) := by
  constructor
  · intro h
    have : abonelikler.any (fun abone => abone.id = yeni.id) = true := by
      rcases h with ⟨abone, hm, hid⟩
      exact List.any_eq_true.mpr ⟨abone, hm, by simp [hid]⟩
    simp [feed_ekle_kaydi, this]
  · intro hnd
    by_cases h : abonelikler.any (fun abone => abone.id = yeni.id) = true
    · simpa [feed_ekle_kaydi, h] using hnd
    · have hyok : ∀ abone ∈ abonelikler, abone.id ≠ yeni.id := by
        intro abone hm hid
        exact h (List.any_eq_true.mpr ⟨abone, hm, by simp [hid]⟩)
      have h' : abonelikler.any (fun abone => abone.id = yeni.id) = false :=
        Bool.not_eq_true _ ▸ eq_false_of_ne_true h
      simp only [feed_ekle_kaydi, h', Bool.false_eq_true, if_false,
        List.map_append, List.map_cons, List.map_nil]
      rw [List.nodup_append]
      refine ⟨hnd, List.nodup_singleton _, ?_⟩
      intro x hx hx'
      obtain ⟨abone, hm, rfl⟩ := List.mem_map.mp hx
      exact hyok abone hm (by simpa using hx')

/-- Witness for C6: re-adding a stored record changes nothing and saves
nothing, and adding a fresh record keeps identifiers unique. -/
theorem mevcut_abonelik_eklenmez_tanik :
    feed_ekle_kaydi [ornekAbonelik] ornekAbonelik = ([ornekAbonelik], false) ∧
      (((feed_ekle_kaydi [ornekAbonelik] digerAbonelik).1).map
        Abonelik.id).Nodup :=
  ⟨(mevcut_abonelik_eklenmez [ornekAbonelik] ornekAbonelik).1
      ⟨ornekAbonelik, List.mem_cons_self _ _, rfl⟩,
   (mevcut_abonelik_eklenmez [ornekAbonelik] digerAbonelik).2
      (by decide)⟩

/-- C9: when the subscription file does not exist, loading yields the
empty list instead of an error, so the home page renders zero
subscriptions, the combined feed iterates over zero topics, and the
per-identifier feed route falls back to the synthesized topic URL. -/
theorem dosya_yoksa_bos (fs : DosyaSistemi) (h : fs.varMi = false) :
    abonelikleri_yukle fs = [] ∧ anasayfaAbonelikleri fs = [] ∧
      hepsiKaynaklari fs = [] ∧
      ∀ baslikId, idIleFeedUrl fs baslikId =
        "https://eksisozluk.com/baslik/" ++ baslikId := by
  have hy : abonelikleri_yukle fs = [] := by
    simp [abonelikleri_yukle, h]
  refine ⟨hy, by simp [anasayfaAbonelikleri, hy], by simp [hepsiKaynaklari, hy], ?_⟩
  intro baslikId
  simp [idIleFeedUrl, hy]

/-- Witness for C9: a missing file with stale content behind it still
loads as empty and the feed route synthesizes the base URL. -/
theorem dosya_yoksa_bos_tanik :
    abonelikleri_yukle ⟨false, [ornekAbonelik]⟩ = [] ∧
      idIleFeedUrl ⟨false, [ornekAbonelik]⟩ "31782" =
        "https://eksisozluk.com/baslik/31782" :=
  ⟨(dosya_yoksa_bos ⟨false, [ornekAbonelik]⟩ rfl).1,
   (dosya_yoksa_bos ⟨false, [ornekAbonelik]⟩ rfl).2.2.2 "31782"⟩

/-- C10: removing an identifier that is not stored leaves the list
unchanged, and removal is idempotent — removing the same identifier twice
equals removing it once. -/
theorem kaldirma_kaydi (abonelikler : List Abonelik) (baslikId : String) :
    ((∀ abone ∈ abonelikler, abone.id ≠ baslikId) →
        feed_kaldir_kaydi abonelikler baslikId = abonelikler) ∧
    feed_kaldir_kaydi (feed_kaldir_kaydi abonelikler baslikId) baslikId =
      feed_kaldir_kaydi abonelikler baslikId := by
  constructor
  · intro h
    unfold feed_kaldir_kaydi
    apply List.filter_eq_self.mpr
    intro abone hm
    simpa using h abone hm
  · unfold feed_kaldir_kaydi
    rw [List.filter_filter]
    simp

/-- Witness for C10: removing an absent identifier from a one-record
store keeps the record, and a second removal of a present identifier is a
no-op. -/
theorem kaldirma_kaydi_tanik :
    feed_kaldir_kaydi [ornekAbonelik] "yok" = [ornekAbonelik] ∧
      feed_kaldir_kaydi (feed_kaldir_kaydi [ornekAbonelik] "31782") "31782" =
        feed_kaldir_kaydi [ornekAbonelik] "31782" :=
  ⟨(kaldirma_kaydi [ornekAbonelik] "yok").1
      (by intro abone hm; simp at hm; subst hm; decide),
   (kaldirma_kaydi [ornekAbonelik] "31782").2⟩

end EksiRss
